import Mathlib

/-!
Verification development for the merco-llmproxy core: a shallow embedding of
the tool registry, the OpenAI-compatible adapter and the Ollama adapter,
together with theorems settling the frozen specification claims.

Machine integers (u16 status codes, u32 token counts) are modelled as Nat;
the Rust code performs no wrapping arithmetic on them (debug builds panic on
overflow, and the only arithmetic is the token-count sum).  JSON documents
are modelled by the Json inductive below; the embedded text parser covers
integer numerals (the subset exercised by this crate).  Object fields are
kept sorted by key with duplicate keys collapsed last-wins, matching the
BTreeMap representation used by serde_json.
-/

/-- The double-quote character, written via its code point. -/
def jsonQuote : Char := Char.ofNat 34

/-- The backslash character, written via its code point. -/
def jsonBackslash : Char := Char.ofNat 92

/-- The opening curly brace character. -/
def jsonLBrace : Char := Char.ofNat 123

/-- The closing curly brace character. -/
def jsonRBrace : Char := Char.ofNat 125

/-- A one-character string holding a single quote (code point 39). -/
def squoteStr : String := String.singleton (Char.ofNat 39)

/-- A one-character string holding a double quote. -/
def dquoteStr : String := String.singleton jsonQuote

/-- A one-character string holding an opening curly brace. -/
def lbraceStr : String := String.singleton jsonLBrace

/-- A one-character string holding a closing curly brace. -/
def rbraceStr : String := String.singleton jsonRBrace

/-- JSON documents, as handled by serde_json.  Numbers are restricted to the
integers, the only numeric shape this crate produces or consumes. -/
inductive Json where
  | null : Json
  | bool (b : Bool) : Json
  | num (n : Int) : Json
  | str (s : String) : Json
  | arr (elems : List Json) : Json
  | obj (fields : List (String × Json)) : Json

/-- Whether a JSON value is the null literal. -/
def Json.isNull : Json → Bool
  | Json.null => true
  | _ => false

/-- Lexicographic comparison of character lists by code point (UTF-8 byte
order coincides with code-point order). -/
def charListLt : List Char → List Char → Bool
  | [], [] => false
  | [], _ :: _ => true
  | _ :: _, [] => false
  | a :: as, b :: bs =>
    if a.toNat < b.toNat then true
    else if a.toNat = b.toNat then charListLt as bs
    else false

/-- The string order of the serde_json object map (BTreeMap key order). -/
def strLt (a b : String) : Bool := charListLt a.data b.data

/-- Insert a field into a key-sorted association list, replacing any field
with the same key: the model of insertion into a serde_json object map. -/
def insertField : List (String × Json) → String → Json → List (String × Json)
  | [], k, v => [(k, v)]
  | (k0, v0) :: rest, k, v =>
    if k = k0 then (k, v) :: rest
    else if strLt k k0 then (k, v) :: (k0, v0) :: rest
    else (k0, v0) :: insertField rest k v

/-- Look up a field of a JSON object map. -/
def getField : List (String × Json) → String → Option Json
  | [], _ => none
  | (k0, v0) :: rest, k => if k = k0 then some v0 else getField rest k

/-- Whitespace recognized by the JSON grammar. -/
def isJsonWs (c : Char) : Bool :=
  c = Char.ofNat 32 || c = Char.ofNat 9 || c = Char.ofNat 10 || c = Char.ofNat 13

/-- Drop leading JSON whitespace. -/
def skipWs : List Char → List Char
  | [] => []
  | c :: cs => if isJsonWs c then skipWs cs else c :: cs

/-- Decode one hexadecimal digit. -/
def parseHexDigit (c : Char) : Option Nat :=
  let n := c.toNat
  if 48 ≤ n ∧ n ≤ 57 then some (n - 48)
  else if 97 ≤ n ∧ n ≤ 102 then some (n - 87)
  else if 65 ≤ n ∧ n ≤ 70 then some (n - 55)
  else none

/-- Decode a single-character JSON escape (everything except the u-escape). -/
def escapedChar (c : Char) : Option Char :=
  if c = jsonQuote then some jsonQuote
  else if c = jsonBackslash then some jsonBackslash
  else if c = Char.ofNat 47 then some (Char.ofNat 47)
  else if c = Char.ofNat 98 then some (Char.ofNat 8)
  else if c = Char.ofNat 102 then some (Char.ofNat 12)
  else if c = Char.ofNat 110 then some (Char.ofNat 10)
  else if c = Char.ofNat 114 then some (Char.ofNat 13)
  else if c = Char.ofNat 116 then some (Char.ofNat 9)
  else none

/-- Parse the body of a JSON string after the opening quote, returning the
decoded string and the input after the closing quote.  Fueled recursion; one
unit of fuel is spent per consumed character. -/
def parseJsonStringBody : Nat → List Char → Option (String × List Char)
  | 0, _ => none
  | _ + 1, [] => none
  | fuel + 1, c :: cs =>
    if c = jsonQuote then some ("", cs)
    else if c = jsonBackslash then
      match cs with
      | [] => none
      | e :: cs2 =>
        if e = Char.ofNat 117 then
          match cs2 with
          | h1 :: h2 :: h3 :: h4 :: cs3 =>
            match parseHexDigit h1, parseHexDigit h2, parseHexDigit h3, parseHexDigit h4 with
            | some a, some b, some c3, some d =>
              match parseJsonStringBody fuel cs3 with
              | some (s, rest) =>
                some (String.singleton (Char.ofNat (a * 4096 + b * 256 + c3 * 16 + d)) ++ s, rest)
              | none => none
            | _, _, _, _ => none
          | _ => none
        else
          match escapedChar e with
          | some ch =>
            match parseJsonStringBody fuel cs2 with
            | some (s, rest) => some (String.singleton ch ++ s, rest)
            | none => none
          | none => none
    else if c.toNat < 32 then none
    else
      match parseJsonStringBody fuel cs with
      | some (s, rest) => some (String.singleton c ++ s, rest)
      | none => none

/-- Accumulate decimal digits, returning the value, the count of digits
consumed and the rest of the input. -/
def parseDigits : Nat → List Char → Nat → Nat → (Nat × Nat × List Char)
  | 0, cs, acc, count => (acc, count, cs)
  | _ + 1, [], acc, count => (acc, count, [])
  | fuel + 1, c :: cs, acc, count =>
    if 48 ≤ c.toNat ∧ c.toNat ≤ 57 then
      parseDigits fuel cs (acc * 10 + (c.toNat - 48)) (count + 1)
    else (acc, count, c :: cs)

/-- Parse a JSON integer numeral (optional minus sign, digits, no leading
zeros).  A following fraction or exponent marker is rejected: the model
covers the integer numerals this crate exchanges. -/
def parseJsonNumber (fuel : Nat) (cs : List Char) : Option (Int × List Char) :=
  let (neg, cs1) :=
    match cs with
    | c :: rest => if c = Char.ofNat 45 then (true, rest) else (false, cs)
    | [] => (false, cs)
  match cs1 with
  | [] => none
  | first :: _ =>
    if 48 ≤ first.toNat ∧ first.toNat ≤ 57 then
      let (value, count, rest) := parseDigits fuel cs1 0 0
      if count = 0 then none
      else if first = Char.ofNat 48 ∧ count > 1 then none
      else
        match rest with
        | r :: _ =>
          if r = Char.ofNat 46 ∨ r = Char.ofNat 101 ∨ r = Char.ofNat 69 then none
          else some (if neg then -(value : Int) else (value : Int), rest)
        | [] => some (if neg then -(value : Int) else (value : Int), rest)
    else none

mutual

/-- Parse one JSON value (after optional leading whitespace). -/
def parseJsonValue : Nat → List Char → Option (Json × List Char)
  | 0, _ => none
  | fuel + 1, cs =>
    match skipWs cs with
    | [] => none
    | c :: rest =>
      if c = jsonQuote then
        match parseJsonStringBody (fuel + 1) rest with
        | some (s, rest2) => some (Json.str s, rest2)
        | none => none
      else if c = jsonLBrace then parseJsonObjFields fuel rest true []
      else if c = Char.ofNat 91 then parseJsonArrayItems fuel rest true []
      else
        match c :: rest with
        | n :: u :: l :: l2 :: rest2 =>
          if n = Char.ofNat 110 ∧ u = Char.ofNat 117 ∧ l = Char.ofNat 108 ∧ l2 = Char.ofNat 108 then
            some (Json.null, rest2)
          else if n = Char.ofNat 116 ∧ u = Char.ofNat 114 ∧ l = Char.ofNat 117 ∧ l2 = Char.ofNat 101 then
            some (Json.bool true, rest2)
          else
            match c :: rest with
            | f :: a :: l3 :: s :: e :: rest3 =>
              if f = Char.ofNat 102 ∧ a = Char.ofNat 97 ∧ l3 = Char.ofNat 108 ∧
                  s = Char.ofNat 115 ∧ e = Char.ofNat 101 then
                some (Json.bool false, rest3)
              else
                match parseJsonNumber (fuel + 1) (c :: rest) with
                | some (i, rest4) => some (Json.num i, rest4)
                | none => none
            | _ =>
              match parseJsonNumber (fuel + 1) (c :: rest) with
              | some (i, rest4) => some (Json.num i, rest4)
              | none => none
        | _ =>
          match parseJsonNumber (fuel + 1) (c :: rest) with
          | some (i, rest4) => some (Json.num i, rest4)
          | none => none

/-- Parse the fields of a JSON object after the opening brace.  The flag
marks whether this is the first field (no preceding comma consumed yet). -/
def parseJsonObjFields :
    Nat → List Char → Bool → List (String × Json) → Option (Json × List Char)
  | 0, _, _, _ => none
  | fuel + 1, cs, isFirst, acc =>
    match skipWs cs with
    | [] => none
    | c :: rest =>
      if c = jsonRBrace ∧ isFirst ∧ acc.isEmpty then some (Json.obj acc, rest)
      else if c = jsonQuote then
        match parseJsonStringBody (fuel + 1) rest with
        | some (key, rest2) =>
          match skipWs rest2 with
          | colon :: rest3 =>
            if colon = Char.ofNat 58 then
              match parseJsonValue fuel rest3 with
              | some (v, rest4) =>
                let acc2 := insertField acc key v
                match skipWs rest4 with
                | sep :: rest5 =>
                  if sep = Char.ofNat 44 then parseJsonObjFields fuel rest5 false acc2
                  else if sep = jsonRBrace then some (Json.obj acc2, rest5)
                  else none
                | [] => none
              | none => none
            else none
          | [] => none
        | none => none
      else none

/-- Parse the items of a JSON array after the opening bracket. -/
def parseJsonArrayItems :
    Nat → List Char → Bool → List Json → Option (Json × List Char)
  | 0, _, _, _ => none
  | fuel + 1, cs, isFirst, acc =>
    match skipWs cs with
    | [] => none
    | c :: rest =>
      if c = Char.ofNat 93 ∧ isFirst ∧ acc.isEmpty then some (Json.arr acc.reverse, rest)
      else
        match parseJsonValue fuel (c :: rest) with
        | some (v, rest2) =>
          match skipWs rest2 with
          | sep :: rest3 =>
            if sep = Char.ofNat 44 then parseJsonArrayItems fuel rest3 false (v :: acc)
            else if sep = Char.ofNat 93 then some (Json.arr (v :: acc).reverse, rest3)
            else none
          | [] => none
        | none => none

end

/-- Parse a complete JSON document from text, requiring the whole input to be
consumed up to trailing whitespace: the model of serde_json from_str into a
Value. -/
def parseJson (s : String) : Option Json :=
  match parseJsonValue (s.length * 6 + 6) s.data with
  | some (v, rest) => if skipWs rest = [] then some v else none
  | none => none

/-- One lowercase hexadecimal digit. -/
def hexDigitChar (n : Nat) : Char :=
  if n < 10 then Char.ofNat (48 + n) else Char.ofNat (87 + n)

/-- Escape one character the way the serde_json compact serializer does. -/
def escapeJsonChar (c : Char) : String :=
  if c = jsonQuote then String.singleton jsonBackslash ++ dquoteStr
  else if c = jsonBackslash then String.singleton jsonBackslash ++ String.singleton jsonBackslash
  else if c.toNat = 8 then String.singleton jsonBackslash ++ "b"
  else if c.toNat = 9 then String.singleton jsonBackslash ++ "t"
  else if c.toNat = 10 then String.singleton jsonBackslash ++ "n"
  else if c.toNat = 12 then String.singleton jsonBackslash ++ "f"
  else if c.toNat = 13 then String.singleton jsonBackslash ++ "r"
  else if c.toNat < 32 then
    String.singleton jsonBackslash ++ "u00" ++
      String.singleton (hexDigitChar (c.toNat / 16)) ++ String.singleton (hexDigitChar (c.toNat % 16))
  else String.singleton c

/-- Serialize a string as a JSON string literal. -/
def encodeJsonString (s : String) : String :=
  dquoteStr ++ String.join (s.data.map escapeJsonChar) ++ dquoteStr

mutual

/-- Compact JSON serialization: the model of serde_json to_string on a
Value. -/
def encodeJson : Json → String
  | Json.null => "null"
  | Json.bool true => "true"
  | Json.bool false => "false"
  | Json.num n => toString n
  | Json.str s => encodeJsonString s
  | Json.arr xs => "[" ++ encodeJsonArray xs ++ "]"
  | Json.obj fs => lbraceStr ++ encodeJsonObj fs ++ rbraceStr

/-- Comma-separated serialization of array elements. -/
def encodeJsonArray : List Json → String
  | [] => ""
  | [x] => encodeJson x
  | x :: y :: rest => encodeJson x ++ "," ++ encodeJsonArray (y :: rest)

/-- Comma-separated serialization of object fields. -/
def encodeJsonObj : List (String × Json) → String
  | [] => ""
  | [(k, v)] => encodeJsonString k ++ ":" ++ encodeJson v
  | (k, v) :: f :: rest => encodeJsonString k ++ ":" ++ encodeJson v ++ "," ++ encodeJsonObj (f :: rest)

end

/-- A run of spaces used for pretty-printed indentation. -/
def indentStr (n : Nat) : String := String.mk (List.replicate n (Char.ofNat 32))

mutual

/-- Pretty JSON serialization with two-space indentation: the model of
serde_json to_string_pretty on a Value. -/
def encodeJsonPretty : Nat → Json → String
  | _, Json.null => "null"
  | _, Json.bool true => "true"
  | _, Json.bool false => "false"
  | _, Json.num n => toString n
  | _, Json.str s => encodeJsonString s
  | _, Json.arr [] => "[]"
  | ind, Json.arr (x :: xs) =>
    "[" ++ String.singleton (Char.ofNat 10) ++ encodeJsonPrettyArray (ind + 2) (x :: xs) ++
      String.singleton (Char.ofNat 10) ++ indentStr ind ++ "]"
  | _, Json.obj [] => lbraceStr ++ rbraceStr
  | ind, Json.obj (f :: fs) =>
    lbraceStr ++ String.singleton (Char.ofNat 10) ++ encodeJsonPrettyObj (ind + 2) (f :: fs) ++
      String.singleton (Char.ofNat 10) ++ indentStr ind ++ rbraceStr

/-- Pretty serialization of array elements, one per line. -/
def encodeJsonPrettyArray : Nat → List Json → String
  | _, [] => ""
  | ind, [x] => indentStr ind ++ encodeJsonPretty ind x
  | ind, x :: y :: rest =>
    indentStr ind ++ encodeJsonPretty ind x ++ "," ++ String.singleton (Char.ofNat 10) ++
      encodeJsonPrettyArray ind (y :: rest)

/-- Pretty serialization of object fields, one per line. -/
def encodeJsonPrettyObj : Nat → List (String × Json) → String
  | _, [] => ""
  | ind, [(k, v)] => indentStr ind ++ encodeJsonString k ++ ": " ++ encodeJsonPretty ind v
  | ind, (k, v) :: f :: rest =>
    indentStr ind ++ encodeJsonString k ++ ": " ++ encodeJsonPretty ind v ++ "," ++
      String.singleton (Char.ofNat 10) ++ encodeJsonPrettyObj ind (f :: rest)

end

/-- The supported providers (config.rs). -/
inductive Provider where
  | openAI : Provider
  | ollama : Provider
  | anthropic : Provider
  | custom : Provider
deriving DecidableEq, Repr

/-- Configuration for initializing an LLM provider (config.rs). -/
structure LlmConfig where
  provider : Provider
  api_key : Option String
  base_url : Option String

/-- Errors returned by LLM providers (traits.rs).  Payload strings model the
display text of the wrapped error where the source wraps a library error. -/
inductive ProviderError where
  | requestError (message : String) : ProviderError
  | apiError (status : Nat) (message : String) : ProviderError
  | parseError (message : String) : ProviderError
  | configError (message : String) : ProviderError
  | streamError (message : String) : ProviderError
  | missingConfig (message : String) : ProviderError
  | toolFormatError (message : String) : ProviderError
  | unsupported (message : String) : ProviderError
  | unexpected (message : String) : ProviderError
deriving DecidableEq, Repr

/-- The constructor of a provider error, without its payload. -/
inductive ErrorKind where
  | requestError : ErrorKind
  | apiError : ErrorKind
  | parseError : ErrorKind
  | configError : ErrorKind
  | streamError : ErrorKind
  | missingConfig : ErrorKind
  | toolFormatError : ErrorKind
  | unsupported : ErrorKind
  | unexpected : ErrorKind
deriving DecidableEq, Repr

/-- Project a provider error to its constructor. -/
def ProviderError.kind : ProviderError → ErrorKind
  | .requestError _ => .requestError
  | .apiError _ _ => .apiError
  | .parseError _ => .parseError
  | .configError _ => .configError
  | .streamError _ => .streamError
  | .missingConfig _ => .missingConfig
  | .toolFormatError _ => .toolFormatError
  | .unsupported _ => .unsupported
  | .unexpected _ => .unexpected

/-- Token usage statistics (traits.rs); u32 counts modelled as Nat. -/
structure TokenUsage where
  prompt_tokens : Nat
  completion_tokens : Nat
  total_tokens : Nat
deriving DecidableEq, Repr

/-- The subset of JSON Schema used for tool parameters (traits.rs). -/
structure JsonSchema where
  schema_type : String
  properties : Option (List (String × Json))
  required : Option (List String)

/-- A tool the model may call (traits.rs). -/
structure Tool where
  name : String
  description : String
  parameters : JsonSchema

/-- Role of a chat message sender (traits.rs). -/
inductive ChatMessageRole where
  | system : ChatMessageRole
  | user : ChatMessageRole
  | assistant : ChatMessageRole
  | tool : ChatMessageRole
deriving DecidableEq, Repr

/-- Function payload of a requested tool call (traits.rs). -/
structure ToolCallFunction where
  name : String
  arguments : String
deriving DecidableEq, Repr

/-- A tool call requested by the assistant (traits.rs). -/
structure ToolCallRequest where
  id : String
  tool_type : String
  function : ToolCallFunction
deriving DecidableEq, Repr

/-- A single chat message (traits.rs). -/
structure ChatMessage where
  role : ChatMessageRole
  content : Option String
  tool_calls : Option (List ToolCallRequest)
  tool_call_id : Option String
deriving DecidableEq, Repr

/-- The kind of completion result (traits.rs). -/
inductive CompletionKind where
  | message (content : String) : CompletionKind
  | toolCall (tool_calls : List ToolCallRequest) : CompletionKind
deriving DecidableEq, Repr

/-- A complete non-streaming response (traits.rs). -/
structure CompletionResponse where
  kind : CompletionKind
  usage : Option TokenUsage
  finish_reason : Option String
deriving DecidableEq, Repr

/-- A request for chat completion (traits.rs).  The f32 temperature is
carried opaquely; no claim computes with it. -/
structure CompletionRequest where
  messages : List ChatMessage
  model : String
  temperature : Option Float
  max_tokens : Option Nat
  tools : Option (List Tool)

/-- Incremental function details within a streamed tool-call delta
(traits.rs). -/
structure ToolCallFunctionStreamDelta where
  name : Option String
  arguments : Option String
deriving DecidableEq, Repr

/-- Incremental information about one streamed tool call (traits.rs). -/
structure ToolCallStreamDelta where
  index : Nat
  id : Option String
  function : Option ToolCallFunctionStreamDelta
deriving DecidableEq, Repr

/-- The content delta of a stream chunk (traits.rs). -/
inductive StreamContentDelta where
  | text (s : String) : StreamContentDelta
  | toolCallDelta (deltas : List ToolCallStreamDelta) : StreamContentDelta
deriving DecidableEq, Repr

/-- One chunk of a streaming response (traits.rs). -/
structure CompletionStreamChunk where
  delta : StreamContentDelta
  usage : Option TokenUsage
  finish_reason : Option String
deriving DecidableEq, Repr

/-- An HTTP response from the backend, as observed by an adapter: the status
code and the response body text. -/
structure HttpResponse where
  status : Nat
  body : String

/-- Whether an HTTP status is a success status (reqwest is_success: 2xx). -/
def statusIsSuccess (status : Nat) : Bool :=
  200 ≤ status && status < 300

/-- Decode a JSON string value. -/
def jString? : Json → Option String
  | Json.str s => some s
  | _ => none

/-- Decode a JSON boolean value. -/
def jBool? : Json → Option Bool
  | Json.bool b => some b
  | _ => none

/-- Decode a JSON number as a u32 (serde rejects out-of-range values). -/
def jU32? : Json → Option Nat
  | Json.num n => if 0 ≤ n ∧ n ≤ 4294967295 then some n.toNat else none
  | _ => none

/-- Decode a JSON number as a u64. -/
def jU64? : Json → Option Nat
  | Json.num n => if 0 ≤ n ∧ n ≤ 18446744073709551615 then some n.toNat else none
  | _ => none

/-- View a JSON value as the field list of an object. -/
def jFields? : Json → Option (List (String × Json))
  | Json.obj fs => some fs
  | _ => none

/-- Decode a required struct field: the field must be present and decode. -/
def decodeReqField (fs : List (String × Json)) (key : String) (dec : Json → Option α) : Option α :=
  (getField fs key).bind dec

/-- Decode an Option-typed struct field: an absent or null field is none; a
present field must decode or the whole struct fails (serde semantics). -/
def decodeOptField (fs : List (String × Json)) (key : String) (dec : Json → Option α) :
    Option (Option α) :=
  match getField fs key with
  | none => some none
  | some v => if v.isNull then some none else (dec v).map some

/-- Decode a JSON array elementwise. -/
def decodeList (dec : Json → Option α) : Json → Option (List α)
  | Json.arr xs => xs.mapM dec
  | _ => none

/-- Decode a chat message role string. -/
def decodeRole (j : Json) : Option ChatMessageRole :=
  match j with
  | Json.str s =>
    if s = "system" then some ChatMessageRole.system
    else if s = "user" then some ChatMessageRole.user
    else if s = "assistant" then some ChatMessageRole.assistant
    else if s = "tool" then some ChatMessageRole.tool
    else none
  | _ => none

/-- Deserialize a ToolCallFunction (traits.rs derive). -/
def decodeToolCallFunction (j : Json) : Option ToolCallFunction := do
  let fs ← jFields? j
  let name ← decodeReqField fs "name" jString?
  let arguments ← decodeReqField fs "arguments" jString?
  pure { name, arguments }

/-- Deserialize a ToolCallRequest (traits.rs derive; the type field is
serialized under the name type). -/
def decodeToolCallRequest (j : Json) : Option ToolCallRequest := do
  let fs ← jFields? j
  let id ← decodeReqField fs "id" jString?
  let tool_type ← decodeReqField fs "type" jString?
  let function ← decodeReqField fs "function" decodeToolCallFunction
  pure { id, tool_type, function }

/-- Deserialize a ChatMessage (traits.rs derive). -/
def decodeChatMessage (j : Json) : Option ChatMessage := do
  let fs ← jFields? j
  let role ← decodeReqField fs "role" decodeRole
  let content ← decodeOptField fs "content" jString?
  let tool_calls ← decodeOptField fs "tool_calls" (decodeList decodeToolCallRequest)
  let tool_call_id ← decodeOptField fs "tool_call_id" jString?
  pure { role, content, tool_calls, tool_call_id }

/-- The function payload of a tool call emitted by the Ollama tool-call
emulation (ollama.rs): arguments arrive as an arbitrary JSON value. -/
structure OllamaToolFunction where
  name : String
  arguments : Json

/-- One tool call in an Ollama tool-call payload (ollama.rs). -/
structure OllamaToolCall where
  id : String
  function : OllamaToolFunction

/-- Deserialize an OllamaToolFunction: name is a required string, arguments
is a required field accepted as any JSON value (serde Value). -/
def decodeOllamaToolFunction (j : Json) : Option OllamaToolFunction := do
  let fs ← jFields? j
  let name ← decodeReqField fs "name" jString?
  let arguments ← getField fs "arguments"
  pure { name, arguments }

/-- Deserialize an OllamaToolCall. -/
def decodeOllamaToolCall (j : Json) : Option OllamaToolCall := do
  let fs ← jFields? j
  let id ← decodeReqField fs "id" jString?
  let function ← decodeReqField fs "function" decodeOllamaToolFunction
  pure { id, function }

/-- Deserialize an OllamaToolCallPayload (ollama.rs): an object whose
required tool_calls field is a list of tool calls. -/
def decodeOllamaToolCallPayload (j : Json) : Option (List OllamaToolCall) := do
  let fs ← jFields? j
  decodeReqField fs "tool_calls" (decodeList decodeOllamaToolCall)

/-- The structured schema a strict-JSON-mode Ollama response is first tried
against (OllamaJsonResponse in ollama.rs). -/
structure OllamaJsonResponse where
  model : String
  created_at : String
  done : Bool
  total_duration : Option Nat
  load_duration : Option Nat
  prompt_eval_count : Option Nat
  prompt_eval_duration : Option Nat
  eval_count : Option Nat
  eval_duration : Option Nat
  message : Option ChatMessage
  tool_calls : Option (List OllamaToolCall)

/-- Deserialize an OllamaJsonResponse: model, created_at and done are
required; everything else is optional but must decode when present. -/
def decodeOllamaJsonResponse (j : Json) : Option OllamaJsonResponse :=
  match jFields? j with
  | none => none
  | some fs =>
    match decodeReqField fs "model" jString?, decodeReqField fs "created_at" jString?,
        decodeReqField fs "done" jBool? with
    | some model, some created_at, some done =>
      match decodeOptField fs "total_duration" jU64?, decodeOptField fs "load_duration" jU64?,
          decodeOptField fs "prompt_eval_count" jU32?,
          decodeOptField fs "prompt_eval_duration" jU64?,
          decodeOptField fs "eval_count" jU32?, decodeOptField fs "eval_duration" jU64? with
      | some td, some ld, some pec, some ped, some ec, some ed =>
        match decodeOptField fs "message" decodeChatMessage,
            decodeOptField fs "tool_calls" (decodeList decodeOllamaToolCall) with
        | some message, some tool_calls =>
          some { model, created_at, done, total_duration := td, load_duration := ld,
                 prompt_eval_count := pec, prompt_eval_duration := ped, eval_count := ec,
                 eval_duration := ed, message, tool_calls }
        | _, _ => none
      | _, _, _, _, _, _ => none
    | _, _, _ => none

/-- The standard non-JSON-mode Ollama response (OllamaStandardResponse in
ollama.rs): the message field is required. -/
structure OllamaStandardResponse where
  model : String
  created_at : String
  message : ChatMessage
  done : Bool
  total_duration : Option Nat
  load_duration : Option Nat
  prompt_eval_count : Option Nat
  prompt_eval_duration : Option Nat
  eval_count : Option Nat
  eval_duration : Option Nat

/-- Deserialize an OllamaStandardResponse. -/
def decodeOllamaStandardResponse (j : Json) : Option OllamaStandardResponse := do
  let fs ← jFields? j
  let model ← decodeReqField fs "model" jString?
  let created_at ← decodeReqField fs "created_at" jString?
  let message ← decodeReqField fs "message" decodeChatMessage
  let done ← decodeReqField fs "done" jBool?
  let total_duration ← decodeOptField fs "total_duration" jU64?
  let load_duration ← decodeOptField fs "load_duration" jU64?
  let prompt_eval_count ← decodeOptField fs "prompt_eval_count" jU32?
  let prompt_eval_duration ← decodeOptField fs "prompt_eval_duration" jU64?
  let eval_count ← decodeOptField fs "eval_count" jU32?
  let eval_duration ← decodeOptField fs "eval_duration" jU64?
  pure { model, created_at, message, done, total_duration, load_duration,
         prompt_eval_count, prompt_eval_duration, eval_count, eval_duration }

/-- A map from strings to strings: the shape the Ollama error path tries to
parse an error body into (HashMap of String to String).  All values must be
strings or the parse fails. -/
def decodeStringMap (j : Json) : Option (List (String × String)) :=
  match j with
  | Json.obj fs => fs.mapM (fun kv => (jString? kv.2).map (fun s => (kv.1, s)))
  | _ => none

/-- Function call inside an OpenAI non-streaming tool call (openai.rs). -/
structure OpenAIFunctionCall where
  name : String
  arguments : String
deriving DecidableEq, Repr

/-- One tool call in an OpenAI non-streaming response (openai.rs). -/
structure OpenAIToolCall where
  id : String
  function : OpenAIFunctionCall
deriving DecidableEq, Repr

/-- The message of an OpenAI choice (openai.rs). -/
structure OpenAIMessage where
  content : Option String
  tool_calls : Option (List OpenAIToolCall)
deriving DecidableEq, Repr

/-- One choice of an OpenAI non-streaming response (openai.rs). -/
structure OpenAIChoice where
  message : OpenAIMessage
  finish_reason : Option String
deriving DecidableEq, Repr

/-- Usage block of an OpenAI response (openai.rs); u32 counts as Nat. -/
structure OpenAIUsage where
  prompt_tokens : Nat
  completion_tokens : Nat
  total_tokens : Nat
deriving DecidableEq, Repr

/-- An OpenAI non-streaming chat response (openai.rs). -/
structure OpenAIChatResponse where
  choices : List OpenAIChoice
  usage : Option OpenAIUsage
deriving DecidableEq, Repr

/-- Deserialize an OpenAIFunctionCall. -/
def decodeOpenAIFunctionCall (j : Json) : Option OpenAIFunctionCall := do
  let fs ← jFields? j
  let name ← decodeReqField fs "name" jString?
  let arguments ← decodeReqField fs "arguments" jString?
  pure { name, arguments }

/-- Deserialize an OpenAIToolCall. -/
def decodeOpenAIToolCall (j : Json) : Option OpenAIToolCall := do
  let fs ← jFields? j
  let id ← decodeReqField fs "id" jString?
  let function ← decodeReqField fs "function" decodeOpenAIFunctionCall
  pure { id, function }

/-- Deserialize an OpenAIMessage. -/
def decodeOpenAIMessage (j : Json) : Option OpenAIMessage := do
  let fs ← jFields? j
  let content ← decodeOptField fs "content" jString?
  let tool_calls ← decodeOptField fs "tool_calls" (decodeList decodeOpenAIToolCall)
  pure { content, tool_calls }

/-- Deserialize an OpenAIChoice. -/
def decodeOpenAIChoice (j : Json) : Option OpenAIChoice := do
  let fs ← jFields? j
  let message ← decodeReqField fs "message" decodeOpenAIMessage
  let finish_reason ← decodeOptField fs "finish_reason" jString?
  pure { message, finish_reason }

/-- Deserialize an OpenAIUsage. -/
def decodeOpenAIUsage (j : Json) : Option OpenAIUsage := do
  let fs ← jFields? j
  let prompt_tokens ← decodeReqField fs "prompt_tokens" jU32?
  let completion_tokens ← decodeReqField fs "completion_tokens" jU32?
  let total_tokens ← decodeReqField fs "total_tokens" jU32?
  pure { prompt_tokens, completion_tokens, total_tokens }

/-- Deserialize an OpenAIChatResponse. -/
def decodeOpenAIChatResponse (j : Json) : Option OpenAIChatResponse := do
  let fs ← jFields? j
  let choices ← decodeReqField fs "choices" (decodeList decodeOpenAIChoice)
  let usage ← decodeOptField fs "usage" decodeOpenAIUsage
  pure { choices, usage }

/-- Extract the message of an OpenAI error envelope: an object with an error
field holding an object with a message string (OpenAIErrorResponse). -/
def decodeOpenAIErrorMessage (j : Json) : Option String := do
  let fs ← jFields? j
  let errVal ← getField fs "error"
  let efs ← jFields? errVal
  decodeReqField efs "message" jString?

/-- A tool executor: takes the raw JSON argument string, returns a result
string or an error string (tools.rs). -/
def ToolExecutor : Type := String → Except String String

/-- Association-list lookup keyed by a decidable key type: the model of
HashMap get. -/
def lookupKey {κ α : Type} [DecidableEq κ] : List (κ × α) → κ → Option α
  | [], _ => none
  | (k0, v) :: rest, k => if k = k0 then some v else lookupKey rest k

/-- Association-list insertion replacing an existing key in place, else
appending: the model of HashMap insert. -/
def insertKey {κ α : Type} [DecidableEq κ] : List (κ × α) → κ → α → List (κ × α)
  | [], k, v => [(k, v)]
  | (k0, v0) :: rest, k, v =>
    if k = k0 then (k, v) :: rest else (k0, v0) :: insertKey rest k v

/-- The tool registry: a mapping from tool name to definition and executor
(tools.rs). -/
structure ToolRegistry where
  tools : List (String × Tool × ToolExecutor)

/-- Create a new empty tool registry. -/
def ToolRegistry.new : ToolRegistry := ⟨[]⟩

/-- Register a tool with its definition and executor: inserts keyed by the
tool name, replacing any previous entry. -/
def ToolRegistry.register (registry : ToolRegistry) (tool : Tool) (ex : ToolExecutor) :
    ToolRegistry :=
  ⟨insertKey registry.tools tool.name (tool, ex)⟩

/-- All registered tool definitions (values only, executors dropped). -/
def ToolRegistry.get_tools (registry : ToolRegistry) : List Tool :=
  registry.tools.map (fun e => e.2.1)

/-- The not-found message produced by execute_tool. -/
def toolNotFoundMsg (name : String) : String :=
  "Tool " ++ squoteStr ++ name ++ squoteStr ++ " not found in registry"

/-- Execute a tool by name with the provided raw argument string. -/
def ToolRegistry.execute_tool (registry : ToolRegistry) (name args : String) :
    Except String String :=
  match lookupKey registry.tools name with
  | some (_, ex) => ex args
  | none => Except.error (toolNotFoundMsg name)

/-- Execute a tool call taken from a response. -/
def ToolRegistry.execute_tool_call (registry : ToolRegistry) (tc : ToolCallFunction) :
    Except String String :=
  registry.execute_tool tc.name tc.arguments

/-- The outcome of taking the global registry lock: the registry on success,
the poison-error display text on failure.  The lock outcome is passed
explicitly so the degradation behavior is observable. -/
def LockResult : Type := Except String ToolRegistry

/-- Register a tool in the global registry (tools.rs register_tool): on lock
failure the registration is a logged no-op and the shared state is left
untouched. -/
def register_tool (lock : LockResult) (tool : Tool) (ex : ToolExecutor) : LockResult :=
  match lock with
  | Except.ok registry => Except.ok (registry.register tool ex)
  | Except.error e => Except.error e

/-- Get all registered tools from the global registry (tools.rs
get_all_tools): an empty list on lock failure. -/
def get_all_tools (lock : LockResult) : List Tool :=
  match lock with
  | Except.ok registry => registry.get_tools
  | Except.error _ => []

/-- Get a subset of registered tools by name (tools.rs get_tools_by_names):
unknown names are silently dropped; lock failure yields an empty list. -/
def get_tools_by_names (lock : LockResult) (names : List String) : List Tool :=
  match lock with
  | Except.ok registry =>
    names.filterMap (fun n => (lookupKey registry.tools n).map (fun e => e.1))
  | Except.error _ => []

/-- Execute a tool through the global registry (tools.rs execute_tool): lock
failure surfaces as an explicit error string. -/
def execute_tool (lock : LockResult) (name args : String) : Except String String :=
  match lock with
  | Except.ok registry => registry.execute_tool name args
  | Except.error e => Except.error ("Failed to lock registry: " ++ e)

/-- Map the OpenAI usage block to the generic TokenUsage (openai.rs
map_usage): all three counts are copied from the backend verbatim. -/
def map_usage (usage : Option OpenAIUsage) : Option TokenUsage :=
  usage.map fun u =>
    { prompt_tokens := u.prompt_tokens,
      completion_tokens := u.completion_tokens,
      total_tokens := u.total_tokens }

/-- Map OpenAI tool calls to generic ToolCallRequest values (openai.rs
map_tool_calls). -/
def map_tool_calls (tool_calls : List OpenAIToolCall) : List ToolCallRequest :=
  tool_calls.map fun tc =>
    { id := tc.id,
      tool_type := "function",
      function := { name := tc.function.name, arguments := tc.function.arguments } }

/-- Determine the completion kind from message content, tool calls and
finish reason (openai.rs determine_completion_kind). -/
def determine_completion_kind (message : OpenAIMessage) (finish_reason : Option String) :
    CompletionKind :=
  match message.content, message.tool_calls with
  | _, some tool_calls => CompletionKind.toolCall (map_tool_calls tool_calls)
  | some content, none => CompletionKind.message content
  | none, none =>
    if finish_reason = some "tool_calls" then CompletionKind.toolCall []
    else CompletionKind.message ""

/-- Extract the error message for an OpenAI non-success response: the parsed
error envelope message when the body parses, otherwise the raw body. -/
def openaiErrorMessage (body : String) : String :=
  match (parseJson body).bind decodeOpenAIErrorMessage with
  | some m => m
  | none => body

/-- Turn a parsed OpenAI response into the completion result: first choice
only, ParseError when the choices list is empty (openai.rs completion). -/
def openaiHandleParsedResponse (r : OpenAIChatResponse) :
    Except ProviderError CompletionResponse :=
  match r.choices with
  | [] => Except.error (ProviderError.parseError "No choices found in OpenAI response")
  | first :: _ =>
    Except.ok
      { kind := determine_completion_kind first.message first.finish_reason,
        usage := map_usage r.usage,
        finish_reason := first.finish_reason }

/-- The OpenAI non-streaming completion call, given the HTTP exchange
outcome (openai.rs completion): config check, status check, body decode,
then response handling. -/
def openai_completion (config : LlmConfig) (_request : CompletionRequest)
    (response : HttpResponse) : Except ProviderError CompletionResponse :=
  if config.provider ≠ Provider.openAI then
    Except.error (ProviderError.configError "Invalid provider configured for OpenAIProvider")
  else if !statusIsSuccess response.status then
    Except.error (ProviderError.apiError response.status (openaiErrorMessage response.body))
  else
    match (parseJson response.body).bind decodeOpenAIChatResponse with
    | none => Except.error (ProviderError.requestError "error decoding response body")
    | some r => openaiHandleParsedResponse r

/-- The Unsupported message of the OpenAI streaming path. -/
def openaiStreamToolsUnsupportedMsg : String :=
  "Streaming tool calls are not currently supported by the OpenAI provider implementation."

/-- The OpenAI streaming call up to the point the stream is opened
(openai.rs completion_stream): tools are rejected before anything else, then
the config check, then the fail-fast status check.  An ok result marks the
opened stream, whose per-frame tool-call aggregation is modelled below. -/
def openai_completion_stream (config : LlmConfig) (request : CompletionRequest)
    (response : HttpResponse) : Except ProviderError Unit :=
  if request.tools.isSome then
    Except.error (ProviderError.unsupported openaiStreamToolsUnsupportedMsg)
  else if config.provider ≠ Provider.openAI then
    Except.error (ProviderError.configError "Invalid provider configured for OpenAIProvider")
  else if !statusIsSuccess response.status then
    Except.error (ProviderError.apiError response.status (openaiErrorMessage response.body))
  else Except.ok ()

/-- A tool-call delta frame element of the OpenAI SSE stream (openai.rs
OpenAIStreamFunctionDelta). -/
structure OpenAIStreamFunctionDelta where
  name : Option String
  arguments : Option String
deriving DecidableEq, Repr

/-- A tool-call delta of one OpenAI SSE frame (openai.rs
OpenAIStreamToolCallDelta). -/
structure OpenAIStreamToolCallDelta where
  index : Nat
  id : Option String
  function : Option OpenAIStreamFunctionDelta
deriving DecidableEq, Repr

/-- The per-stream tool-call aggregation state: the map keyed by delta index
(openai.rs completion_stream). -/
def AggState : Type := List (Nat × ToolCallStreamDelta)

/-- Process one incoming tool-call delta against the aggregation state
(openai.rs completion_stream, frame loop body): the entry for the index is
created on demand; an incoming id or function name overwrites the stored
field whenever present; an incoming arguments fragment is appended to the
accumulated argument string.  Returns the updated state and the clone of the
aggregated entry pushed into the emitted chunk. -/
def aggregateToolCallDelta (st : AggState) (d : OpenAIStreamToolCallDelta) :
    AggState × ToolCallStreamDelta :=
  let entry0 := (lookupKey st d.index).getD { index := d.index, id := none, function := none }
  let entry1 :=
    match d.id with
    | some newId => { entry0 with id := some newId }
    | none => entry0
  let entry2 :=
    match d.function with
    | none => entry1
    | some fd =>
      let f0 := entry1.function.getD { name := none, arguments := none }
      let f1 :=
        match fd.name with
        | some n => { f0 with name := some n }
        | none => f0
      let f2 :=
        match fd.arguments with
        | some a => { f1 with arguments := some (f1.arguments.getD "" ++ a) }
        | none => f1
      { entry1 with function := some f2 }
  (insertKey st d.index entry2, entry2)

/-- Process the tool-call deltas of one frame in order, collecting the
emitted aggregated clones (openai.rs completion_stream, generic_deltas). -/
def aggregateFrameDeltas (st : AggState) (ds : List OpenAIStreamToolCallDelta) :
    AggState × List ToolCallStreamDelta :=
  ds.foldl
    (fun acc d =>
      let next := aggregateToolCallDelta acc.1 d
      (next.1, acc.2 ++ [next.2]))
    (st, [])

/-- Fold the aggregation state over a sequence of frames each carrying
tool-call deltas. -/
def processToolFrames (st : AggState) (frames : List (List OpenAIStreamToolCallDelta)) :
    AggState :=
  frames.foldl (fun s f => (aggregateFrameDeltas s f).1) st

/-- The accumulated argument string stored for an index (empty when no entry
or no fragment has arrived). -/
def aggArgsAt (st : AggState) (i : Nat) : String :=
  match lookupKey st i with
  | some e =>
    match e.function with
    | some f => f.arguments.getD ""
    | none => ""
  | none => ""

/-- The stored id for an index, if any. -/
def aggIdAt (st : AggState) (i : Nat) : Option String :=
  (lookupKey st i).bind (fun e => e.id)

/-- The stored function name for an index, if any. -/
def aggNameAt (st : AggState) (i : Nat) : Option String :=
  ((lookupKey st i).bind (fun e => e.function)).bind (fun f => f.name)

/-- All argument fragments addressed to an index, in arrival order. -/
def argFragmentsAt (frames : List (List OpenAIStreamToolCallDelta)) (i : Nat) : List String :=
  frames.flatten.filterMap
    (fun d => if d.index = i then d.function.bind (fun f => f.arguments) else none)

/-- All id values addressed to an index, in arrival order. -/
def idUpdatesAt (frames : List (List OpenAIStreamToolCallDelta)) (i : Nat) : List String :=
  frames.flatten.filterMap (fun d => if d.index = i then d.id else none)

/-- All function-name values addressed to an index, in arrival order. -/
def nameUpdatesAt (frames : List (List OpenAIStreamToolCallDelta)) (i : Nat) : List String :=
  frames.flatten.filterMap
    (fun d => if d.index = i then d.function.bind (fun f => f.name) else none)

/-- Calculate token usage when both counts are available (ollama.rs
calculate_usage): the total is the sum of the two counts. -/
def calculate_usage (prompt_tokens completion_tokens : Option Nat) : Option TokenUsage :=
  match prompt_tokens, completion_tokens with
  | some pt, some ct =>
    some { prompt_tokens := pt, completion_tokens := ct, total_tokens := pt + ct }
  | _, _ => none

/-- Map Ollama tool calls to generic ToolCallRequest values (ollama.rs
map_ollama_tool_calls): a string argument value is taken as is, any other
JSON value is re-encoded to its compact JSON text. -/
def map_ollama_tool_calls (ollama_calls : List OllamaToolCall) : List ToolCallRequest :=
  ollama_calls.map fun call =>
    { id := call.id,
      tool_type := "function",
      function :=
        { name := call.function.name,
          arguments :=
            match call.function.arguments with
            | Json.str s => s
            | other => encodeJson other } }

/-- Serialize a JsonSchema the way serde does for the prompt block: fields
in declaration order, absent options as null. -/
def schemaToJson (s : JsonSchema) : Json :=
  Json.obj
    [("type", Json.str s.schema_type),
     ("properties",
       match s.properties with
       | some ps => Json.obj ps
       | none => Json.null),
     ("required",
       match s.required with
       | some r => Json.arr (r.map Json.str)
       | none => Json.null)]

/-- Format tool definitions into the instruction block appended to the
system prompt (ollama.rs format_tools_for_prompt). -/
def format_tools_for_prompt (tools : List Tool) : String :=
  let header :=
    "You have access to the following tools. Use them if necessary by outputting ONLY a JSON object with a single key " ++
    squoteStr ++ "tool_calls" ++ squoteStr ++
    " containing a list of calls. Each call object in the list should have " ++
    squoteStr ++ "id" ++ squoteStr ++ " (a unique lowercase string), and " ++
    squoteStr ++ "function" ++ squoteStr ++ " containing " ++
    squoteStr ++ "name" ++ squoteStr ++ " (the tool name) and " ++
    squoteStr ++ "arguments" ++ squoteStr ++
    " (a JSON object matching the tool" ++ squoteStr ++
    "s parameters schema). Do not output any other text, explanation, or markdown formatting around the JSON object.\n\nAvailable Tools:\n"
  tools.foldl
    (fun acc tool =>
      acc ++ "- Name: " ++ tool.name ++ "\n" ++
        "  Description: " ++ tool.description ++ "\n" ++
        "  Parameters Schema: " ++ encodeJsonPretty 0 (schemaToJson tool.parameters) ++ "\n")
    header

/-- Whether the Ollama completion enables strict-JSON mode: tools present
and non-empty (ollama.rs completion). -/
def ollama_use_json_format (request : CompletionRequest) : Bool :=
  match request.tools with
  | some ts => !ts.isEmpty
  | none => false

/-- Append the tool prompt to the first system message of the list
(ollama.rs completion, iter_mut().find + content rewrite). -/
def appendToolPromptToFirstSystem (prompt : String) : List ChatMessage → List ChatMessage
  | [] => []
  | m :: rest =>
    if m.role = ChatMessageRole.system then
      { m with content := some (m.content.getD "" ++ "\n\n" ++ prompt) } :: rest
    else m :: appendToolPromptToFirstSystem prompt rest

/-- Build the message list sent to Ollama (ollama.rs completion): when a
non-empty tool list is present the tool prompt is appended to the first
system message or prepended as a new one; then every message is sanitized by
dropping its tool_calls field. -/
def ollama_build_messages (request : CompletionRequest) : List ChatMessage :=
  let injected :=
    match request.tools with
    | some tools =>
      if !tools.isEmpty then
        let tool_prompt := format_tools_for_prompt tools
        if request.messages.any (fun m => m.role = ChatMessageRole.system) then
          appendToolPromptToFirstSystem tool_prompt request.messages
        else
          { role := ChatMessageRole.system, content := some tool_prompt,
            tool_calls := none, tool_call_id := none } :: request.messages
      else request.messages
    | none => request.messages
  injected.map fun msg => { msg with tool_calls := none }

/-- Ollama request options (ollama.rs OllamaOptions). -/
structure OllamaOptions where
  temperature : Option Float
  num_predict : Option Nat

/-- Create the options block when at least one option is set (ollama.rs
create_ollama_options). -/
def create_ollama_options (request : CompletionRequest) : Option OllamaOptions :=
  let options : OllamaOptions :=
    { temperature := request.temperature, num_predict := request.max_tokens }
  if options.temperature.isSome || options.num_predict.isSome then some options else none

/-- The wire request sent to Ollama (ollama.rs OllamaChatRequest). -/
structure OllamaChatRequest where
  model : String
  messages : List ChatMessage
  stream : Bool
  format : Option String
  options : Option OllamaOptions

/-- Build the non-streaming Ollama wire request (ollama.rs completion). -/
def build_ollama_chat_request (request : CompletionRequest) : OllamaChatRequest :=
  { model := request.model,
    messages := ollama_build_messages request,
    stream := false,
    format := if ollama_use_json_format request then some "json" else none,
    options := create_ollama_options request }

/-- Extract the error message for an Ollama non-success response: the error
entry of the body parsed as a string map when that parse succeeds and the
key is present, otherwise the raw body. -/
def ollamaErrorMessage (body : String) : String :=
  match (parseJson body).bind decodeStringMap with
  | some m =>
    match lookupKey m "error" with
    | some v => v
    | none => body
  | none => body

/-- The ParseError message for a structured response missing both the
message and the tool_calls field. -/
def ollamaMissingFieldsMsg : String :=
  "Ollama JSON response did not contain expected " ++ squoteStr ++ "message" ++ squoteStr ++
    " or " ++ squoteStr ++ "tool_calls" ++ squoteStr ++ " field."

/-- Parse a strict-JSON-mode Ollama response body (ollama.rs completion,
use_json_format branch): try the structured schema first, preferring its
top-level tool_calls; else look inside the message content; else fall back
to the bare tool-call payload; else ParseError. -/
def ollama_parse_json_mode (raw : Json) : Except ProviderError CompletionResponse :=
  match decodeOllamaJsonResponse raw with
  | some r =>
    let usage := calculate_usage r.prompt_eval_count r.eval_count
    match r.tool_calls with
    | some tool_calls =>
      Except.ok
        { kind := CompletionKind.toolCall (map_ollama_tool_calls tool_calls),
          usage,
          finish_reason := if r.done then some "tool_calls" else none }
    | none =>
      match r.message with
      | some message =>
        match message.content with
        | some content_str =>
          match (parseJson content_str).bind decodeOllamaToolCallPayload with
          | some tool_payload =>
            Except.ok
              { kind := CompletionKind.toolCall (map_ollama_tool_calls tool_payload),
                usage,
                finish_reason := if r.done then some "tool_calls" else none }
          | none =>
            Except.ok
              { kind := CompletionKind.message content_str,
                usage,
                finish_reason := if r.done then some "stop" else none }
        | none =>
          Except.ok
            { kind := CompletionKind.message "",
              usage,
              finish_reason := if r.done then some "stop" else none }
      | none => Except.error (ProviderError.parseError ollamaMissingFieldsMsg)
  | none =>
    match decodeOllamaToolCallPayload raw with
    | some tool_payload =>
      Except.ok
        { kind := CompletionKind.toolCall (map_ollama_tool_calls tool_payload),
          usage := none,
          finish_reason := some "tool_calls" }
    | none =>
      Except.error (ProviderError.parseError "Ollama JSON response matched no expected shape")

/-- Parse a standard (non-JSON-mode) Ollama response body (ollama.rs
completion, else branch). -/
def ollama_parse_standard (raw : Json) : Except ProviderError CompletionResponse :=
  match decodeOllamaStandardResponse raw with
  | some r =>
    Except.ok
      { kind := CompletionKind.message (r.message.content.getD ""),
        usage := calculate_usage r.prompt_eval_count r.eval_count,
        finish_reason := if r.done then some "stop" else none }
  | none => Except.error (ProviderError.requestError "error decoding response body")

/-- The Ollama non-streaming completion call, given the HTTP exchange
outcome (ollama.rs completion). -/
def ollama_completion (config : LlmConfig) (request : CompletionRequest)
    (response : HttpResponse) : Except ProviderError CompletionResponse :=
  if config.provider ≠ Provider.ollama ∧ config.provider ≠ Provider.custom then
    Except.error (ProviderError.configError "Invalid provider configured for OllamaProvider")
  else if !statusIsSuccess response.status then
    Except.error (ProviderError.apiError response.status (ollamaErrorMessage response.body))
  else if ollama_use_json_format request then
    match parseJson response.body with
    | some raw => ollama_parse_json_mode raw
    | none => Except.error (ProviderError.requestError "error decoding response body")
  else
    match parseJson response.body with
    | some raw => ollama_parse_standard raw
    | none => Except.error (ProviderError.requestError "error decoding response body")

/-- The Unsupported message of the Ollama streaming path. -/
def ollamaStreamToolsUnsupportedMsg : String :=
  "Streaming tool calls are not currently supported by the Ollama provider (requires format=json which disables streaming)."

/-- The Ollama streaming call up to the point the stream is opened
(ollama.rs completion_stream): tools rejected first, then the config check,
then the fail-fast status check. -/
def ollama_completion_stream (config : LlmConfig) (request : CompletionRequest)
    (response : HttpResponse) : Except ProviderError Unit :=
  if request.tools.isSome then
    Except.error (ProviderError.unsupported ollamaStreamToolsUnsupportedMsg)
  else if config.provider ≠ Provider.ollama ∧ config.provider ≠ Provider.custom then
    Except.error (ProviderError.configError "Invalid provider configured for OllamaProvider")
  else if !statusIsSuccess response.status then
    Except.error (ProviderError.apiError response.status (ollamaErrorMessage response.body))
  else Except.ok ()

/-- Project a completion outcome to its observable kind: the completion kind
on success, the error constructor on failure. -/
def resultKind (r : Except ProviderError CompletionResponse) : Except ErrorKind CompletionKind :=
  match r with
  | Except.ok resp => Except.ok resp.kind
  | Except.error e => Except.error e.kind

/-- The preference order stated by the specification for strict-JSON-mode
Ollama responses, written from the words of the claim for comparison with
the code model: (1) whole response parses as the structured schema with a
top-level tool-calls field, then ToolCall; (2) otherwise, a present message
body has its text content parsed as a tool-call payload, success ToolCall,
failure Message verbatim; (3) otherwise the raw response is parsed directly
as a bare tool-call payload; (4) otherwise ParseError. -/
def spec_ollama_json_mode_kind (raw : Json) : Except ErrorKind CompletionKind :=
  match decodeOllamaJsonResponse raw with
  | some r =>
    match r.tool_calls with
    | some tool_calls => Except.ok (CompletionKind.toolCall (map_ollama_tool_calls tool_calls))
    | none =>
      match r.message with
      | some message =>
        let text := message.content.getD ""
        match (parseJson text).bind decodeOllamaToolCallPayload with
        | some payload => Except.ok (CompletionKind.toolCall (map_ollama_tool_calls payload))
        | none => Except.ok (CompletionKind.message text)
      | none =>
        match decodeOllamaToolCallPayload raw with
        | some payload => Except.ok (CompletionKind.toolCall (map_ollama_tool_calls payload))
        | none => Except.error ErrorKind.parseError
  | none =>
    match decodeOllamaToolCallPayload raw with
    | some payload => Except.ok (CompletionKind.toolCall (map_ollama_tool_calls payload))
    | none => Except.error ErrorKind.parseError

/-- Fold the aggregation state over a flat sequence of tool-call deltas. -/
def processDeltas (st : AggState) (ds : List OpenAIStreamToolCallDelta) : AggState :=
  ds.foldl (fun s d => (aggregateToolCallDelta s d).1) st

/-- Concatenation of a list of fragments in order. -/
def concatFragments : List String → String
  | [] => ""
  | s :: rest => s ++ concatFragments rest

/-- Replay overwrite-when-present updates over a base value: each update in
the list replaces the current value, so the last update wins and the base
survives only when no update arrives. -/
def applyUpdates (base : Option String) (updates : List String) : Option String :=
  updates.foldl (fun _ u => some u) base

/-- The tool descriptors of all registry entries stored under a name. -/
def entriesFor (l : List (String × Tool × ToolExecutor)) (name : String) : List Tool :=
  l.filterMap (fun e => if e.1 = name then some e.2.1 else none)


theorem lookupKey_insertKey {κ α : Type} [DecidableEq κ] (l : List (κ × α)) (k i : κ) (v : α) :
    lookupKey (insertKey l k v) i = if i = k then some v else lookupKey l i := by
  induction l with
  | nil => by_cases hik : i = k <;> simp [insertKey, lookupKey, hik]
  | cons hd tl ih =>
    obtain ⟨k0, v0⟩ := hd
    by_cases hk : k = k0
    · subst hk
      by_cases hik : i = k <;> simp [insertKey, lookupKey, hik]
    · by_cases hik : i = k0
      · have h2 : ¬(k0 = k) := fun h => hk h.symm
        simp [insertKey, hk, lookupKey, hik, h2]
      · simp [insertKey, hk, lookupKey, hik, ih]

theorem lookupKey_eq_none_of_not_mem_keys {κ α : Type} [DecidableEq κ] (l : List (κ × α))
    (x : κ) (h : x ∉ l.map Prod.fst) : lookupKey l x = none := by
  induction l with
  | nil => simp [lookupKey]
  | cons hd tl ih =>
    obtain ⟨k0, v0⟩ := hd
    simp only [List.map_cons, List.mem_cons, not_or] at h
    simp [lookupKey, h.1, ih h.2]

theorem insertKey_fresh {κ α : Type} [DecidableEq κ] (l : List (κ × α)) (k : κ) (v : α)
    (h : lookupKey l k = none) : insertKey l k v = l ++ [(k, v)] := by
  induction l with
  | nil => simp [insertKey]
  | cons hd tl ih =>
    obtain ⟨k0, v0⟩ := hd
    by_cases hk : k = k0
    · simp [lookupKey, hk] at h
    · simp [lookupKey, hk] at h
      simp [insertKey, hk, ih h]

theorem entriesFor_eq_nil_of_lookup_none (l : List (String × Tool × ToolExecutor))
    (name : String) (h : lookupKey l name = none) : entriesFor l name = [] := by
  induction l with
  | nil => simp [entriesFor]
  | cons hd tl ih =>
    obtain ⟨k0, v0⟩ := hd
    by_cases hk : name = k0
    · simp [lookupKey, hk] at h
    · simp [lookupKey, hk] at h
      have hne : ¬(k0 = name) := fun hh => hk hh.symm
      simp only [entriesFor, List.filterMap_cons, hne, if_false] at ih ⊢
      exact ih h

theorem mem_keys_insertKey {κ α : Type} [DecidableEq κ] (l : List (κ × α)) (k x : κ) (v : α) :
    x ∈ (insertKey l k v).map Prod.fst ↔ x ∈ l.map Prod.fst ∨ x = k := by
  induction l with
  | nil => simp [insertKey]
  | cons hd tl ih =>
    obtain ⟨k0, v0⟩ := hd
    by_cases hk : k = k0
    · subst hk
      simp [insertKey]
      tauto
    · simp [insertKey, hk, ih]
      tauto

theorem nodup_keys_insertKey {κ α : Type} [DecidableEq κ] (l : List (κ × α)) (k : κ) (v : α)
    (h : (l.map Prod.fst).Nodup) : ((insertKey l k v).map Prod.fst).Nodup := by
  induction l with
  | nil => simp [insertKey]
  | cons hd tl ih =>
    obtain ⟨k0, v0⟩ := hd
    simp only [List.map_cons, List.nodup_cons] at h
    by_cases hk : k = k0
    · subst hk
      have hins : insertKey ((k, v0) :: tl) k v = (k, v) :: tl := by simp [insertKey]
      rw [hins, List.map_cons, List.nodup_cons]
      exact h
    · simp only [insertKey, if_neg hk, List.map_cons, List.nodup_cons]
      refine ⟨?_, ih h.2⟩
      intro hmem
      rcases (mem_keys_insertKey tl k k0 v).mp hmem with hin | heq
      · exact h.1 hin
      · exact hk heq.symm

theorem entriesFor_insertKey_self (l : List (String × Tool × ToolExecutor)) (tool : Tool)
    (ex : ToolExecutor) (name : String) (h : (l.map Prod.fst).Nodup) :
    entriesFor (insertKey l name (tool, ex)) name = [tool] := by
  induction l with
  | nil => simp [insertKey, entriesFor]
  | cons hd tl ih =>
    obtain ⟨k0, v0⟩ := hd
    simp only [List.map_cons, List.nodup_cons] at h
    by_cases hk : name = k0
    · subst hk
      have hnone : lookupKey tl name = none :=
        lookupKey_eq_none_of_not_mem_keys tl name h.1
      simp only [insertKey, if_pos rfl, entriesFor, List.filterMap_cons, if_pos rfl]
      simpa [entriesFor] using entriesFor_eq_nil_of_lookup_none tl name hnone
    · have hk3 : ¬(k0 = name) := fun hh => hk hh.symm
      simp only [insertKey, if_neg hk, entriesFor, List.filterMap_cons, hk3, if_false] at ih ⊢
      exact ih h.2

/-- C6: executing a tool whose name has no registry entry fails with the
not-found error (and, the functions being total, never panics); executing a
tool whose name has an entry invokes its executor on the raw argument string
and returns its result or error verbatim. -/
theorem c6_execute_tool_contract :
    ∀ (registry : ToolRegistry) (name args : String),
      (lookupKey registry.tools name = none →
        registry.execute_tool name args = Except.error (toolNotFoundMsg name))
      ∧ (∀ (tool : Tool) (ex : ToolExecutor),
          lookupKey registry.tools name = some (tool, ex) →
          registry.execute_tool name args = ex args) := by
  intro registry name args
  constructor
  · intro h
    simp [ToolRegistry.execute_tool, h]
  · intro tool ex h
    simp [ToolRegistry.execute_tool, h]

/-- C6 witness: the empty registry rejects a missing tool with the not-found
error, and a one-entry registry returns its executor result verbatim. -/
theorem c6_execute_tool_contract_witness :
    (ToolRegistry.mk []).execute_tool "missing" (lbraceStr ++ rbraceStr) =
      Except.error (toolNotFoundMsg "missing")
    ∧ (ToolRegistry.mk
        [("echo",
          ({ name := "echo", description := "echoes its input",
             parameters := { schema_type := "object", properties := none, required := none } },
           fun args => Except.ok args))]).execute_tool "echo" "41" = Except.ok "41" := by
  constructor
  · exact (c6_execute_tool_contract (ToolRegistry.mk []) "missing" (lbraceStr ++ rbraceStr)).1 rfl
  · exact (c6_execute_tool_contract _ "echo" "41").2 _ _ rfl

/-- C7: registration is last-write-wins.  Registering two tools sharing a
name leaves exactly one entry under that name, whose descriptor is the later
tool; registering under a fresh name adds exactly one entry. -/
theorem c7_register_last_write_wins :
    (∀ (registry : ToolRegistry) (a a2 : Tool) (ex ex2 : ToolExecutor),
        (registry.tools.map Prod.fst).Nodup →
        a.name = a2.name →
        entriesFor (((registry.register a ex).register a2 ex2).tools) a2.name = [a2])
    ∧ (∀ (registry : ToolRegistry) (b : Tool) (ex : ToolExecutor),
        lookupKey registry.tools b.name = none →
        ((registry.register b ex).tools.length = registry.tools.length + 1
          ∧ entriesFor ((registry.register b ex).tools) b.name = [b])) := by
  constructor
  · intro registry a a2 ex ex2 hnodup hname
    have h1 : (((registry.register a ex).tools).map Prod.fst).Nodup :=
      nodup_keys_insertKey registry.tools a.name (a, ex) hnodup
    simpa [ToolRegistry.register] using
      entriesFor_insertKey_self ((registry.register a ex).tools) a2 ex2 a2.name h1
  · intro registry b ex h
    have hins := insertKey_fresh registry.tools b.name (b, ex) h
    constructor
    · simp [ToolRegistry.register, hins]
    · have hnil := entriesFor_eq_nil_of_lookup_none registry.tools b.name h
      simp [ToolRegistry.register, hins, entriesFor, List.filterMap_append] at hnil ⊢
      simpa [entriesFor] using hnil

/-- C7 witness: re-registering the name add keeps only the later descriptor;
a fresh name grows the registry by one entry. -/
theorem c7_register_last_write_wins_witness :
    entriesFor
        (((ToolRegistry.mk []).register
            { name := "add", description := "first",
              parameters := { schema_type := "object", properties := none, required := none } }
            (fun _ => Except.ok "1")).register
          { name := "add", description := "second",
            parameters := { schema_type := "object", properties := none, required := none } }
          (fun _ => Except.ok "2")).tools "add" =
      [{ name := "add", description := "second",
         parameters := { schema_type := "object", properties := none, required := none } }]
    ∧ (((ToolRegistry.mk []).register
          { name := "mul", description := "fresh",
            parameters := { schema_type := "object", properties := none, required := none } }
          (fun _ => Except.ok "3")).tools.length = 0 + 1) := by
  constructor
  · exact c7_register_last_write_wins.1 (ToolRegistry.mk []) _ _ _ _ (by simp) rfl
  · exact (c7_register_last_write_wins.2 (ToolRegistry.mk []) _ _ rfl).1

/-- C8: when taking the global registry lock fails, both read operations
return empty results, registration leaves the shared state untouched, and
execution returns an explicit error; every operation is a total function, so
no panic is propagated. -/
theorem c8_lock_poisoning_degrades :
    ∀ (e : String) (tool : Tool) (ex : ToolExecutor) (names : List String) (name args : String),
      get_all_tools (Except.error e) = []
      ∧ get_tools_by_names (Except.error e) names = []
      ∧ register_tool (Except.error e) tool ex = Except.error e
      ∧ execute_tool (Except.error e) name args =
          Except.error ("Failed to lock registry: " ++ e) := by
  intro e tool ex names name args
  exact ⟨rfl, rfl, rfl, rfl⟩

/-- C9 counterexample: the OpenAI adapter's map_usage copies the backend's
total verbatim, so a backend usage block of prompt 1, completion 1, total 5
produces a TokenUsage whose total is not the sum of the two counts, refuting
the claim that every produced TokenUsage satisfies the sum invariant. -/
theorem c9_counterexample_total_not_sum :
    map_usage (some { prompt_tokens := 1, completion_tokens := 1, total_tokens := 5 }) =
      some { prompt_tokens := 1, completion_tokens := 1, total_tokens := 5 }
    ∧ (5 : Nat) ≠ 1 + 1 := by
  exact ⟨rfl, by decide⟩

/-- C9 amended: the Ollama adapter constructs usage exactly when both counts
are present and sets the total to their sum; the OpenAI adapter copies the
backend-reported prompt, completion and total counts verbatim, so its total
equals the sum only when the backend reports it so. -/
theorem c9_usage_construction :
    (∀ pt ct : Nat,
        calculate_usage (some pt) (some ct) =
          some { prompt_tokens := pt, completion_tokens := ct, total_tokens := pt + ct })
    ∧ (∀ pt : Nat, calculate_usage (some pt) none = none)
    ∧ (∀ ct : Nat, calculate_usage none (some ct) = none)
    ∧ calculate_usage none none = none
    ∧ (∀ u : OpenAIUsage,
        map_usage (some u) =
          some { prompt_tokens := u.prompt_tokens, completion_tokens := u.completion_tokens,
                 total_tokens := u.total_tokens })
    ∧ map_usage none = none := by
  exact ⟨fun pt ct => rfl, fun pt => rfl, fun ct => rfl, rfl, fun u => rfl, rfl⟩

/-- C4: whenever the tools field of a request is present, both adapters
reject completion_stream with Unsupported instead of opening a stream. -/
theorem c4_streaming_tools_rejected :
    ∀ (config : LlmConfig) (request : CompletionRequest) (response : HttpResponse),
      request.tools.isSome = true →
      openai_completion_stream config request response =
        Except.error (ProviderError.unsupported openaiStreamToolsUnsupportedMsg)
      ∧ ollama_completion_stream config request response =
        Except.error (ProviderError.unsupported ollamaStreamToolsUnsupportedMsg) := by
  intro config request response h
  constructor
  · simp [openai_completion_stream, h]
  · simp [ollama_completion_stream, h]

/-- C4 witness: a request carrying one tool is rejected by both streaming
paths even against a successful backend. -/
theorem c4_streaming_tools_rejected_witness :
    openai_completion_stream
        { provider := Provider.openAI, api_key := some "k", base_url := none }
        { messages := [], model := "m", temperature := none, max_tokens := none,
          tools := some [{ name := "t", description := "d",
                           parameters := { schema_type := "object", properties := none,
                                           required := none } }] }
        { status := 200, body := "" } =
      Except.error (ProviderError.unsupported openaiStreamToolsUnsupportedMsg)
    ∧ ollama_completion_stream
        { provider := Provider.ollama, api_key := none, base_url := none }
        { messages := [], model := "m", temperature := none, max_tokens := none,
          tools := some [{ name := "t", description := "d",
                           parameters := { schema_type := "object", properties := none,
                                           required := none } }] }
        { status := 200, body := "" } =
      Except.error (ProviderError.unsupported ollamaStreamToolsUnsupportedMsg) := by
  exact c4_streaming_tools_rejected _ _ _ rfl

/-- C10: a present-but-empty tool list is rejected by completion_stream with
Unsupported on both adapters, while the Ollama completion treats it exactly
like an absent list: strict-JSON mode stays off, no tool instruction block
is injected, and the whole call behaves as if tools were absent. -/
theorem c10_empty_tools_contrast :
    ∀ (config : LlmConfig) (request : CompletionRequest) (response : HttpResponse),
      request.tools = some [] →
      openai_completion_stream config request response =
        Except.error (ProviderError.unsupported openaiStreamToolsUnsupportedMsg)
      ∧ ollama_completion_stream config request response =
        Except.error (ProviderError.unsupported ollamaStreamToolsUnsupportedMsg)
      ∧ ollama_use_json_format request = false
      ∧ ollama_build_messages request =
          request.messages.map (fun msg => { msg with tool_calls := none })
      ∧ ollama_completion config request response =
          ollama_completion config { request with tools := none } response := by
  intro config request response h
  refine ⟨?_, ?_, ?_, ?_, ?_⟩
  · simp [openai_completion_stream, h]
  · simp [ollama_completion_stream, h]
  · simp [ollama_use_json_format, h]
  · simp [ollama_build_messages, h]
  · simp [ollama_completion, ollama_use_json_format, h]

/-- C10 witness: a concrete request with an empty tool list is rejected by
both streaming paths, leaves strict-JSON mode off, leaves the message list
uninjected, and completes identically to the absent-tools request. -/
theorem c10_empty_tools_contrast_witness :
    openai_completion_stream
        { provider := Provider.openAI, api_key := some "k", base_url := none }
        { messages := [], model := "m", temperature := none, max_tokens := none,
          tools := some [] }
        { status := 200, body := "" } =
      Except.error (ProviderError.unsupported openaiStreamToolsUnsupportedMsg)
    ∧ ollama_use_json_format
        { messages := [], model := "m", temperature := none, max_tokens := none,
          tools := some [] } = false := by
  constructor
  · exact (c10_empty_tools_contrast _ _ _ rfl).1
  · exact (c10_empty_tools_contrast
      { provider := Provider.openAI, api_key := some "k", base_url := none } _
      { status := 200, body := "" } rfl).2.2.1

/-- C2: the OpenAI non-streaming response handling uses only the first
choice (ParseError when there is none) and determines the kind by: tool
calls present take precedence over content; else present content is a
Message; else the tool_calls finish reason yields an empty ToolCall; else an
empty Message. -/
theorem c2_first_choice_completion_kind :
    (∀ usage : Option OpenAIUsage,
        openaiHandleParsedResponse { choices := [], usage } =
          Except.error (ProviderError.parseError "No choices found in OpenAI response"))
    ∧ (∀ (choice : OpenAIChoice) (rest : List OpenAIChoice) (usage : Option OpenAIUsage),
        openaiHandleParsedResponse { choices := choice :: rest, usage } =
          Except.ok
            { kind := determine_completion_kind choice.message choice.finish_reason,
              usage := map_usage usage, finish_reason := choice.finish_reason })
    ∧ (∀ (content : Option String) (tool_calls : List OpenAIToolCall)
          (finish_reason : Option String),
        determine_completion_kind { content, tool_calls := some tool_calls } finish_reason =
          CompletionKind.toolCall (map_tool_calls tool_calls))
    ∧ (∀ (content : String) (finish_reason : Option String),
        determine_completion_kind { content := some content, tool_calls := none } finish_reason =
          CompletionKind.message content)
    ∧ determine_completion_kind { content := none, tool_calls := none } (some "tool_calls") =
        CompletionKind.toolCall []
    ∧ (∀ finish_reason : Option String, finish_reason ≠ some "tool_calls" →
        determine_completion_kind { content := none, tool_calls := none } finish_reason =
          CompletionKind.message "") := by
  refine ⟨fun usage => rfl, fun choice rest usage => rfl, ?_, fun content fr => rfl, ?_, ?_⟩
  · intro content tool_calls finish_reason
    cases content <;> rfl
  · simp [determine_completion_kind]
  · intro finish_reason h
    simp [determine_completion_kind, h]

/-- C2 witness: the empty-choices ParseError, the precedence of tool calls
over present content, and the non-tool finish-reason fallback, all at
concrete inputs. -/
theorem c2_first_choice_completion_kind_witness :
    openaiHandleParsedResponse { choices := [], usage := none } =
      Except.error (ProviderError.parseError "No choices found in OpenAI response")
    ∧ determine_completion_kind
        { content := some "ignored",
          tool_calls := some [{ id := "c1", function := { name := "f", arguments := "[]" } }] }
        (some "tool_calls") =
      CompletionKind.toolCall
        [{ id := "c1", tool_type := "function",
           function := { name := "f", arguments := "[]" } }]
    ∧ determine_completion_kind { content := none, tool_calls := none } (some "stop") =
        CompletionKind.message "" := by
  refine ⟨c2_first_choice_completion_kind.1 none, ?_, ?_⟩
  · exact c2_first_choice_completion_kind.2.2.1 (some "ignored") _ (some "tool_calls")
  · exact c2_first_choice_completion_kind.2.2.2.2.2 (some "stop") (by decide)

/-- C5: whenever the backend answers with a non-success status and the call
reaches the HTTP exchange (its pre-flight tool and config checks pass), each
adapter path returns ApiError carrying that status and the parsed-or-raw
body message; on the streaming paths the error replaces the stream, so no
chunk is produced.  The final conjuncts pin down the parsed-or-raw message
extraction for both adapters. -/
theorem c5_api_error_on_failure_status :
    (∀ (config : LlmConfig) (request : CompletionRequest) (response : HttpResponse),
        statusIsSuccess response.status = false →
        (config.provider = Provider.openAI →
          openai_completion config request response =
            Except.error
              (ProviderError.apiError response.status (openaiErrorMessage response.body)))
        ∧ (request.tools = none → config.provider = Provider.openAI →
          openai_completion_stream config request response =
            Except.error
              (ProviderError.apiError response.status (openaiErrorMessage response.body)))
        ∧ (config.provider = Provider.ollama ∨ config.provider = Provider.custom →
          ollama_completion config request response =
            Except.error
              (ProviderError.apiError response.status (ollamaErrorMessage response.body)))
        ∧ (request.tools = none →
            config.provider = Provider.ollama ∨ config.provider = Provider.custom →
          ollama_completion_stream config request response =
            Except.error
              (ProviderError.apiError response.status (ollamaErrorMessage response.body))))
    ∧ (∀ (body m : String), (parseJson body).bind decodeOpenAIErrorMessage = some m →
        openaiErrorMessage body = m)
    ∧ (∀ body : String, (parseJson body).bind decodeOpenAIErrorMessage = none →
        openaiErrorMessage body = body)
    ∧ (∀ (body v : String) (m : List (String × String)),
        (parseJson body).bind decodeStringMap = some m →
        lookupKey m "error" = some v →
        ollamaErrorMessage body = v)
    ∧ (∀ body : String, (parseJson body).bind decodeStringMap = none →
        ollamaErrorMessage body = body) := by
  refine ⟨?_, ?_, ?_, ?_, ?_⟩
  · intro config request response hs
    refine ⟨?_, ?_, ?_, ?_⟩
    · intro hp
      simp [openai_completion, hp, hs]
    · intro ht hp
      simp [openai_completion_stream, ht, hp, hs]
    · intro hp
      rcases hp with hp | hp <;> simp [ollama_completion, hp, hs]
    · intro ht hp
      rcases hp with hp | hp <;> simp [ollama_completion_stream, ht, hp, hs]
  · intro body m h
    simp [openaiErrorMessage, h]
  · intro body h
    simp [openaiErrorMessage, h]
  · intro body v m hm hv
    simp [ollamaErrorMessage, hm, hv]
  · intro body h
    simp [ollamaErrorMessage, h]

/-- C5 witness: a 429 answer surfaces as ApiError on all four paths, the
OpenAI envelope message is extracted when the body parses, and the Ollama
error map entry likewise. -/
theorem c5_api_error_on_failure_status_witness :
    openai_completion
        { provider := Provider.openAI, api_key := some "k", base_url := none }
        { messages := [], model := "m", temperature := none, max_tokens := none, tools := none }
        { status := 429, body := "boom" } =
      Except.error (ProviderError.apiError 429 (openaiErrorMessage "boom"))
    ∧ openai_completion_stream
        { provider := Provider.openAI, api_key := some "k", base_url := none }
        { messages := [], model := "m", temperature := none, max_tokens := none, tools := none }
        { status := 429, body := "boom" } =
      Except.error (ProviderError.apiError 429 (openaiErrorMessage "boom"))
    ∧ ollama_completion
        { provider := Provider.ollama, api_key := none, base_url := none }
        { messages := [], model := "m", temperature := none, max_tokens := none, tools := none }
        { status := 429, body := "boom" } =
      Except.error (ProviderError.apiError 429 (ollamaErrorMessage "boom"))
    ∧ ollama_completion_stream
        { provider := Provider.ollama, api_key := none, base_url := none }
        { messages := [], model := "m", temperature := none, max_tokens := none, tools := none }
        { status := 429, body := "boom" } =
      Except.error (ProviderError.apiError 429 (ollamaErrorMessage "boom"))
    ∧ openaiErrorMessage
        ("\x7b\"error\":\x7b\"message\":\"rate limited\"\x7d\x7d") = "rate limited"
    ∧ ollamaErrorMessage ("\x7b\"error\":\"overloaded\"\x7d") = "overloaded"
    ∧ openaiErrorMessage "boom" = "boom" := by
  refine ⟨?_, ?_, ?_, ?_, ?_, ?_, ?_⟩
  · exact ((c5_api_error_on_failure_status.1 _ _ _ (by decide)).1) rfl
  · exact ((c5_api_error_on_failure_status.1 _ _ _ (by decide)).2.1) rfl rfl
  · exact ((c5_api_error_on_failure_status.1 _ _ _ (by decide)).2.2.1) (Or.inl rfl)
  · exact ((c5_api_error_on_failure_status.1
      { provider := Provider.ollama, api_key := none, base_url := none }
      { messages := [], model := "m", temperature := none, max_tokens := none, tools := none }
      { status := 429, body := "boom" } (by decide)).2.2.2) rfl (Or.inl rfl)
  · exact c5_api_error_on_failure_status.2.1 _ "rate limited" (by decide)
  · exact c5_api_error_on_failure_status.2.2.2.1 _ "overloaded" [("error", "overloaded")]
      (by decide) (by decide)
  · exact c5_api_error_on_failure_status.2.2.1 "boom" (by decide)

theorem aggArgsAt_aggregate (st : AggState) (d : OpenAIStreamToolCallDelta) (i : Nat) :
    aggArgsAt (aggregateToolCallDelta st d).1 i =
      if d.index = i then
        aggArgsAt st i ++ (d.function.bind (fun f => f.arguments)).getD ""
      else aggArgsAt st i := by
  obtain ⟨idx, oid, ofn⟩ := d
  by_cases hi : idx = i
  · subst hi
    rcases ofn with _ | ⟨fn, fa⟩
    · cases hl : lookupKey st idx with
      | none =>
        cases oid <;> simp [aggregateToolCallDelta, aggArgsAt, lookupKey_insertKey, hl]
      | some e =>
        obtain ⟨ei, eid, efn⟩ := e
        cases oid <;> rcases efn with _ | ⟨en, ea⟩ <;>
          simp [aggregateToolCallDelta, aggArgsAt, lookupKey_insertKey, hl]
    · rcases fa with _ | a <;> rcases fn with _ | n <;>
        · cases hl : lookupKey st idx with
          | none =>
            cases oid <;> simp [aggregateToolCallDelta, aggArgsAt, lookupKey_insertKey, hl]
          | some e =>
            obtain ⟨ei, eid, efn⟩ := e
            cases oid <;> rcases efn with _ | ⟨en, ea⟩ <;> (try cases ea) <;>
              simp [aggregateToolCallDelta, aggArgsAt, lookupKey_insertKey, hl]
  · have hne : ¬(i = idx) := fun h => hi h.symm
    rcases ofn with _ | ⟨fn, fa⟩ <;>
      simp [aggregateToolCallDelta, aggArgsAt, lookupKey_insertKey, hne, hi]

theorem aggIdAt_aggregate (st : AggState) (d : OpenAIStreamToolCallDelta) (i : Nat) :
    aggIdAt (aggregateToolCallDelta st d).1 i =
      if d.index = i then d.id.orElse (fun _ => aggIdAt st i)
      else aggIdAt st i := by
  obtain ⟨idx, oid, ofn⟩ := d
  by_cases hi : idx = i
  · subst hi
    cases hl : lookupKey st idx with
    | none =>
      cases oid <;> rcases ofn with _ | ⟨fn, fa⟩ <;> (try cases fn) <;> (try cases fa) <;>
        simp [aggregateToolCallDelta, aggIdAt, lookupKey_insertKey, hl]
    | some e =>
      obtain ⟨ei, eid, efn⟩ := e
      cases oid <;> rcases ofn with _ | ⟨fn, fa⟩ <;> (try cases fn) <;> (try cases fa) <;>
        rcases efn with _ | ⟨en, ea⟩ <;>
        simp [aggregateToolCallDelta, aggIdAt, lookupKey_insertKey, hl]
  · have hne : ¬(i = idx) := fun h => hi h.symm
    rcases ofn with _ | ⟨fn, fa⟩ <;>
      simp [aggregateToolCallDelta, aggIdAt, lookupKey_insertKey, hne, hi]

theorem aggNameAt_aggregate (st : AggState) (d : OpenAIStreamToolCallDelta) (i : Nat) :
    aggNameAt (aggregateToolCallDelta st d).1 i =
      if d.index = i then
        (d.function.bind (fun f => f.name)).orElse (fun _ => aggNameAt st i)
      else aggNameAt st i := by
  obtain ⟨idx, oid, ofn⟩ := d
  by_cases hi : idx = i
  · subst hi
    cases hl : lookupKey st idx with
    | none =>
      cases oid <;> rcases ofn with _ | ⟨fn, fa⟩ <;> (try cases fn) <;> (try cases fa) <;>
        simp [aggregateToolCallDelta, aggNameAt, lookupKey_insertKey, hl]
    | some e =>
      obtain ⟨ei, eid, efn⟩ := e
      cases oid <;> rcases ofn with _ | ⟨fn, fa⟩ <;> (try cases fn) <;> (try cases fa) <;>
        rcases efn with _ | ⟨en, ea⟩ <;>
        simp [aggregateToolCallDelta, aggNameAt, lookupKey_insertKey, hl]
  · have hne : ¬(i = idx) := fun h => hi h.symm
    rcases ofn with _ | ⟨fn, fa⟩ <;>
      simp [aggregateToolCallDelta, aggNameAt, lookupKey_insertKey, hne, hi]

theorem aggregateFrameDeltas_fst (st : AggState) (ds : List OpenAIStreamToolCallDelta) :
    (aggregateFrameDeltas st ds).1 = processDeltas st ds := by
  suffices h : ∀ (st : AggState) (acc : List ToolCallStreamDelta),
      (ds.foldl
        (fun acc d =>
          let next := aggregateToolCallDelta acc.1 d
          (next.1, acc.2 ++ [next.2]))
        (st, acc)).1 = processDeltas st ds by
    exact h st []
  induction ds with
  | nil => intro st acc; rfl
  | cons d rest ih => intro st acc; exact ih (aggregateToolCallDelta st d).1 _

theorem processToolFrames_eq_processDeltas
    (frames : List (List OpenAIStreamToolCallDelta)) :
    ∀ st : AggState, processToolFrames st frames = processDeltas st frames.flatten := by
  induction frames with
  | nil => intro st; rfl
  | cons f rest ih =>
    intro st
    show processToolFrames (aggregateFrameDeltas st f).1 rest = _
    rw [aggregateFrameDeltas_fst, ih]
    simp [processDeltas, List.foldl_append]

theorem aggArgsAt_processDeltas (ds : List OpenAIStreamToolCallDelta) :
    ∀ (st : AggState) (i : Nat),
      aggArgsAt (processDeltas st ds) i =
        aggArgsAt st i ++ concatFragments
          (ds.filterMap
            (fun d => if d.index = i then d.function.bind (fun f => f.arguments) else none)) := by
  induction ds with
  | nil => intro st i; simp [processDeltas, concatFragments]
  | cons d rest ih =>
    intro st i
    show aggArgsAt (processDeltas (aggregateToolCallDelta st d).1 rest) i = _
    rw [ih, aggArgsAt_aggregate]
    by_cases hi : d.index = i
    · cases hf : d.function.bind (fun f => f.arguments) with
      | none => simp [hi, hf, List.filterMap_cons]
      | some a => simp [hi, hf, List.filterMap_cons, concatFragments, String.append_assoc]
    · simp [hi, List.filterMap_cons]

theorem aggIdAt_processDeltas (ds : List OpenAIStreamToolCallDelta) :
    ∀ (st : AggState) (i : Nat),
      aggIdAt (processDeltas st ds) i =
        applyUpdates (aggIdAt st i)
          (ds.filterMap (fun d => if d.index = i then d.id else none)) := by
  induction ds with
  | nil => intro st i; rfl
  | cons d rest ih =>
    intro st i
    show aggIdAt (processDeltas (aggregateToolCallDelta st d).1 rest) i = _
    rw [ih, aggIdAt_aggregate]
    by_cases hi : d.index = i
    · cases hid : d.id with
      | none => simp [hi, hid, List.filterMap_cons]
      | some x => simp [hi, hid, List.filterMap_cons, applyUpdates]
    · simp [hi, List.filterMap_cons]

theorem aggNameAt_processDeltas (ds : List OpenAIStreamToolCallDelta) :
    ∀ (st : AggState) (i : Nat),
      aggNameAt (processDeltas st ds) i =
        applyUpdates (aggNameAt st i)
          (ds.filterMap
            (fun d => if d.index = i then d.function.bind (fun f => f.name) else none)) := by
  induction ds with
  | nil => intro st i; rfl
  | cons d rest ih =>
    intro st i
    show aggNameAt (processDeltas (aggregateToolCallDelta st d).1 rest) i = _
    rw [ih, aggNameAt_aggregate]
    by_cases hi : d.index = i
    · cases hn : d.function.bind (fun f => f.name) with
      | none => simp [hi, hn, List.filterMap_cons]
      | some x => simp [hi, hn, List.filterMap_cons, applyUpdates]
    · simp [hi, List.filterMap_cons]

/-- C1 (amended): in the per-stream tool-call aggregation, for every state
and every sequence of frames carrying tool-call deltas, the argument
fragments addressed to one index are appended to its accumulated argument
string in arrival order and never replace it (the final string is the prior
string followed by the concatenation of all fragments for that index); an
incoming id or function name overwrites the stored field whenever it is
present, even when it is the empty string, and the stored field survives
only when no update arrives; one call whose arguments are split into three
fragments at one index aggregates to the exact concatenation of the three
fragments with a single stable id. -/
theorem c1_stream_toolcall_aggregation :
    (∀ (st : AggState) (frames : List (List OpenAIStreamToolCallDelta)) (i : Nat),
        aggArgsAt (processToolFrames st frames) i =
          aggArgsAt st i ++ concatFragments (argFragmentsAt frames i))
    ∧ (∀ (st : AggState) (frames : List (List OpenAIStreamToolCallDelta)) (i : Nat),
        aggIdAt (processToolFrames st frames) i =
          applyUpdates (aggIdAt st i) (idUpdatesAt frames i))
    ∧ (∀ (st : AggState) (frames : List (List OpenAIStreamToolCallDelta)) (i : Nat),
        aggNameAt (processToolFrames st frames) i =
          applyUpdates (aggNameAt st i) (nameUpdatesAt frames i))
    ∧ processToolFrames ([] : AggState)
        [[{ index := 0, id := some "call_abc",
            function := some { name := some "get_data", arguments := some "\x7b\"a\":" } }],
         [{ index := 0, id := none,
            function := some { name := none, arguments := some "1,\"b\":" } }],
         [{ index := 0, id := none,
            function := some { name := none, arguments := some "2\x7d" } }]] =
      [(0, { index := 0, id := some "call_abc",
             function := some { name := some "get_data",
                                arguments := some "\x7b\"a\":1,\"b\":2\x7d" } })] := by
  refine ⟨?_, ?_, ?_, by rfl⟩
  · intro st frames i
    rw [processToolFrames_eq_processDeltas, aggArgsAt_processDeltas]
    rfl
  · intro st frames i
    rw [processToolFrames_eq_processDeltas, aggIdAt_processDeltas]
    rfl
  · intro st frames i
    rw [processToolFrames_eq_processDeltas, aggNameAt_processDeltas]
    rfl

/-- C1 counterexample: the claim says a later frame overwrites the stored id
only when the incoming id is present and non-empty, but after a frame
carrying the id call_abc and a later frame carrying the present-but-empty
id, the stored id is the empty string, not call_abc: a present empty id does
overwrite. -/
theorem c1_counterexample_empty_id_overwrites :
    aggIdAt
        (processToolFrames ([] : AggState)
          [[{ index := 0, id := some "call_abc", function := none }],
           [{ index := 0, id := some "", function := none }]]) 0 = some ""
    ∧ (some "" : Option String) ≠ some "call_abc" := by
  exact ⟨by decide, by decide⟩

theorem ollamaPayload_none_of_optField (fs : List (String × Json))
    (h : decodeOptField fs "tool_calls" (decodeList decodeOllamaToolCall) = some none) :
    decodeOllamaToolCallPayload (Json.obj fs) = none := by
  unfold decodeOptField at h
  cases hg : getField fs "tool_calls" with
  | none =>
    simp [decodeOllamaToolCallPayload, jFields?, decodeReqField, hg]
  | some v =>
    rw [hg] at h
    by_cases hv : v.isNull = true
    · have hvn : v = Json.null := by cases v <;> simp [Json.isNull] at hv ⊢
      subst hvn
      simp [decodeOllamaToolCallPayload, jFields?, decodeReqField, hg, decodeList]
    · have h2 : (if v.isNull = true then some none
          else Option.map some (decodeList decodeOllamaToolCall v)) =
          (some none : Option (Option (List OllamaToolCall))) := h
      rw [if_neg hv] at h2
      exfalso
      cases hd : decodeList decodeOllamaToolCall v <;> rw [hd] at h2 <;> simp at h2

theorem optField_toolcalls_of_decode (j : Json) (r : OllamaJsonResponse)
    (h : decodeOllamaJsonResponse j = some r) :
    ∃ fs, j = Json.obj fs ∧
      decodeOptField fs "tool_calls" (decodeList decodeOllamaToolCall) = some r.tool_calls := by
  cases j with
  | obj fs =>
    refine ⟨fs, rfl, ?_⟩
    simp only [decodeOllamaJsonResponse, jFields?] at h
    split at h
    · split at h
      · split at h
        · rename_i hmsg htcs
          injection h with h2
          rw [← h2]
          exact htcs
        · exact absurd h (by simp)
      · exact absurd h (by simp)
    · exact absurd h (by simp)
  | null => simp [decodeOllamaJsonResponse, jFields?] at h
  | bool b => simp [decodeOllamaJsonResponse, jFields?] at h
  | num n => simp [decodeOllamaJsonResponse, jFields?] at h
  | str s => simp [decodeOllamaJsonResponse, jFields?] at h
  | arr xs => simp [decodeOllamaJsonResponse, jFields?] at h

theorem payloadNone_of_structured (j : Json) (r : OllamaJsonResponse)
    (h : decodeOllamaJsonResponse j = some r) (htc : r.tool_calls = none) :
    decodeOllamaToolCallPayload j = none := by
  obtain ⟨fs, hj, hopt⟩ := optField_toolcalls_of_decode j r h
  subst hj
  rw [htc] at hopt
  exact ollamaPayload_none_of_optField fs hopt

/-- C3: for every strict-JSON-mode Ollama response body, the code's parse
outcome (up to the error payload text) follows the specified preference
order — structured schema with top-level tool-calls first, then the message
text content parsed as a tool-call payload (success ToolCall with re-encoded
arguments, failure Message verbatim), then the bare tool-call payload, then
ParseError — and the concrete strict-JSON message content of the claim
parses to one ToolCall whose object argument is re-encoded as a JSON
string. -/
theorem c3_json_mode_preference_order :
    (∀ raw : Json,
        resultKind (ollama_parse_json_mode raw) = spec_ollama_json_mode_kind raw)
    ∧ resultKind (ollama_parse_json_mode (Json.obj
        [("created_at", Json.str "t"), ("done", Json.bool true),
         ("message", Json.obj
           [("content", Json.str
              ("\x7b\"tool_calls\":[\x7b\"id\":\"x\",\"function\":\x7b\"name\":\"f\"," ++
               "\"arguments\":\x7b\"n\":1\x7d\x7d\x7d]\x7d")),
            ("role", Json.str "assistant")]),
         ("model", Json.str "m")])) =
      Except.ok (CompletionKind.toolCall
        [{ id := "x", tool_type := "function",
           function := { name := "f", arguments := "\x7b\"n\":1\x7d" } }]) := by
  constructor
  · intro raw
    simp only [ollama_parse_json_mode, spec_ollama_json_mode_kind]
    cases h : decodeOllamaJsonResponse raw with
    | none =>
      cases hp : decodeOllamaToolCallPayload raw <;> simp [resultKind, ProviderError.kind]
    | some r =>
      cases htc : r.tool_calls with
      | some tcs => simp [htc, resultKind]
      | none =>
        cases hm : r.message with
        | none =>
          rw [payloadNone_of_structured raw r h htc]
          simp [htc, hm, resultKind, ProviderError.kind]
        | some msg =>
          cases hc : msg.content with
          | some c =>
            cases hpp : (parseJson c).bind decodeOllamaToolCallPayload <;>
              simp [htc, hm, hc, hpp, resultKind]
          | none =>
            have hemp : parseJson "" = none := rfl
            simp [htc, hm, hc, resultKind, hemp]
  · have hdec : decodeOllamaJsonResponse (Json.obj
        [("created_at", Json.str "t"), ("done", Json.bool true),
         ("message", Json.obj
           [("content", Json.str
              "\x7b\"tool_calls\":[\x7b\"id\":\"x\",\"function\":\x7b\"name\":\"f\",\"arguments\":\x7b\"n\":1\x7d\x7d\x7d]\x7d"),
            ("role", Json.str "assistant")]),
         ("model", Json.str "m")]) =
      some { model := "m", created_at := "t", done := true, total_duration := none,
             load_duration := none, prompt_eval_count := none, prompt_eval_duration := none,
             eval_count := none, eval_duration := none,
             message := some { role := ChatMessageRole.assistant,
                               content := some
                                 "\x7b\"tool_calls\":[\x7b\"id\":\"x\",\"function\":\x7b\"name\":\"f\",\"arguments\":\x7b\"n\":1\x7d\x7d\x7d]\x7d",
                               tool_calls := none, tool_call_id := none },
             tool_calls := none } := rfl
    have hpayload : (parseJson
        "\x7b\"tool_calls\":[\x7b\"id\":\"x\",\"function\":\x7b\"name\":\"f\",\"arguments\":\x7b\"n\":1\x7d\x7d\x7d]\x7d").bind decodeOllamaToolCallPayload =
      some [{ id := "x",
              function := { name := "f", arguments := Json.obj [("n", Json.num 1)] } }] := rfl
    have henc : encodeJson (Json.obj [("n", Json.num 1)]) = "\x7b\"n\":1\x7d" := by
      simp [encodeJson, encodeJsonObj, encodeJsonString, escapeJsonChar, dquoteStr, lbraceStr,
        rbraceStr, jsonQuote, jsonBackslash, jsonLBrace, jsonRBrace]
      decide
    simp [ollama_parse_json_mode, hdec, hpayload, resultKind, map_ollama_tool_calls, henc]
